import Mathlib

/-!
Shallow embedding of the air-ticket booking backend (Express + Mongoose).
Each route handler of `src/routes/user.route.js`, `src/routes/flight.route.js`
and `src/routes/booking.route.js` becomes a pure Lean function over an
explicit `Store` (the three Mongo collections) with system-generated
identifiers passed in explicitly.  Responses carry the exact status codes and
message strings of the source.
-/

/-- Mongo ObjectIds, modelled as naturals. -/
abbrev DocId := Nat

/-- A password value as stored in the `password` field of a User document:
either plaintext (as written by the PATCH /api/user/:id handler, which does
not re-hash) or the result of `bcrypt.hash(plain, cost)` with the salt that
bcrypt generated internally. -/
inductive PasswordValue where
  | plain (s : String)
  | hashed (salt : String) (cost : Nat) (src : String)
deriving DecidableEq, Repr

/-- `bcrypt.hash(password, cost)`: a salted one-way hash; the salt bcrypt
draws at random is an explicit parameter here. -/
def bcryptHash (password : String) (salt : String) (cost : Nat) : PasswordValue :=
  .hashed salt cost password

/-- `bcrypt.compare(password, stored)`: succeeds exactly when `stored` is a
bcrypt hash of `password`; comparing against a non-hash string fails. -/
def bcryptCompare (password : String) (stored : PasswordValue) : Bool :=
  match stored with
  | .hashed _ _ src => password == src
  | .plain _ => false

/-- A User document (`models/user.model`). -/
structure User where
  _id : DocId
  name : String
  email : String
  password : PasswordValue
deriving DecidableEq, Repr

/-- A Flight document (`models/flight.model`). -/
structure Flight where
  _id : DocId
  airline : String
  flightNo : String
  departure : String
  arrival : String
  departureTime : String
  arrivalTime : String
  seats : Int
  price : Int
deriving DecidableEq, Repr

/-- A Booking document (`models/booking.model`): references a User and a
Flight by identifier. -/
structure Booking where
  _id : DocId
  user : DocId
  flight : DocId
deriving DecidableEq, Repr

/-- The database: the three collections. -/
structure Store where
  users : List User
  flights : List Flight
  bookings : List Booking
deriving DecidableEq, Repr

/-- `UserModel.findById`. -/
def UserModel.findById (s : Store) (i : DocId) : Option User :=
  s.users.find? (fun u => u._id == i)

/-- `FlightModel.findById`. -/
def FlightModel.findById (s : Store) (i : DocId) : Option Flight :=
  s.flights.find? (fun f => f._id == i)

/-- `BookingModel.findById`. -/
def BookingModel.findById (s : Store) (i : DocId) : Option Booking :=
  s.bookings.find? (fun b => b._id == i)

/-- Replace the (first) document whose key is `i` by its image under `f`;
other documents are untouched.  Shared by the three `findByIdAndUpdate`
embeddings. -/
def updateBy {α : Type} (key : α → DocId) (f : α → α) (i : DocId) : List α → List α
  | [] => []
  | x :: rest => if key x == i then f x :: rest else x :: updateBy key f i rest

/-- A JWT as produced by `jwt.sign({ userId }, secret, { expiresIn })`. -/
structure Token where
  userId : DocId
  secret : String
  expiresIn : String
deriving DecidableEq, Repr

/-- `jwt.sign`. -/
def jwtSign (userId : DocId) (secret : String) (expiresIn : String) : Token :=
  { userId := userId, secret := secret, expiresIn := expiresIn }

/-! ## User routes (`src/routes/user.route.js`) -/

/-- Response of GET /api/user: `res.status(200).json({ users: data })`. -/
structure UserListResult where
  status : Nat
  users : List User
deriving DecidableEq, Repr

/-- Handler of GET /api/user. -/
def userRouterList (s : Store) : UserListResult :=
  { status := 200, users := s.users }

/-- Response of POST /api/user/register. -/
structure RegisterResult where
  status : Nat
  message : String
  newUser : User
deriving DecidableEq, Repr

/-- Handler of POST /api/user/register: hashes the password with cost 5 and
saves a new User; `newId` is the ObjectId Mongo generates, `salt` the salt
bcrypt generates. -/
def userRouterRegister (s : Store) (newId : DocId) (salt : String)
    (name email password : String) : RegisterResult × Store :=
  let hashPassword := bcryptHash password salt 5
  let newUser : User := { _id := newId, name := name, email := email, password := hashPassword }
  ({ status := 201, message := "User saved", newUser := newUser },
   { s with users := s.users ++ [newUser] })

/-- Response of POST /api/user/login. -/
structure LoginResult where
  status : Nat
  message : String
  token : Option Token
deriving DecidableEq, Repr

/-- Handler of POST /api/user/login. -/
def userRouterLogin (s : Store) (email password : String) : LoginResult :=
  match s.users.find? (fun u => u.email == email) with
  | none => { status := 401, message := "User not present", token := none }
  | some user =>
    let convertedPassword := bcryptCompare password user.password
    let token := jwtSign user._id "secret" "1h"
    if convertedPassword then
      { status := 200, message := "User logged in", token := some token }
    else
      { status := 401, message := "password wrong", token := none }

/-- A status code together with the optional `message` field of the JSON
body (204 responses have an empty body). -/
structure StatusResult where
  status : Nat
  message : Option String
deriving DecidableEq, Repr

/-- Handler of DELETE /api/user/:id: `findByIdAndDelete`, 404 when the id
resolved to no document. -/
def userRouterDelete (s : Store) (userId : DocId) : StatusResult × Store :=
  let deletedUser := UserModel.findById s userId
  let s2 : Store := { s with users := s.users.filter (fun u => u._id != userId) }
  match deletedUser with
  | none => ({ status := 404, message := some "User not found" }, s2)
  | some _ => ({ status := 204, message := none }, s2)

/-- The update object `{ name, email, password }` of PATCH /api/user/:id;
fields absent from the request body are `undefined` and Mongoose strips them
from the update. -/
structure UserUpdate where
  name : Option String
  email : Option String
  password : Option String
deriving DecidableEq, Repr

/-- Apply a user update: supplied fields overwrite, the rest keep their
values.  A supplied password is stored as-is (the handler does not re-hash). -/
def applyUserUpdate (u : User) (upd : UserUpdate) : User :=
  { u with
    name := upd.name.getD u.name
    email := upd.email.getD u.email
    password := match upd.password with
      | some p => PasswordValue.plain p
      | none => u.password }

/-- Handler of PATCH /api/user/:id: `findByIdAndUpdate`, 404 when absent,
otherwise 204 with an empty body. -/
def userRouterPatch (s : Store) (userId : DocId) (upd : UserUpdate) : StatusResult × Store :=
  match UserModel.findById s userId with
  | none => ({ status := 404, message := some "User not found" }, s)
  | some _ =>
    ({ status := 204, message := none },
     { s with users := updateBy User._id (fun u => applyUserUpdate u upd) userId s.users })

/-! ## Flight routes (`src/routes/flight.route.js`) -/

/-- The update object of PATCH /api/flight/:id: the request body, any subset
of the eight flight fields. -/
structure FlightUpdate where
  airline : Option String
  flightNo : Option String
  departure : Option String
  arrival : Option String
  departureTime : Option String
  arrivalTime : Option String
  seats : Option Int
  price : Option Int
deriving DecidableEq, Repr

/-- Apply a flight update: supplied fields overwrite, the rest keep their
values. -/
def applyFlightUpdate (f : Flight) (upd : FlightUpdate) : Flight :=
  { f with
    airline := upd.airline.getD f.airline
    flightNo := upd.flightNo.getD f.flightNo
    departure := upd.departure.getD f.departure
    arrival := upd.arrival.getD f.arrival
    departureTime := upd.departureTime.getD f.departureTime
    arrivalTime := upd.arrivalTime.getD f.arrivalTime
    seats := upd.seats.getD f.seats
    price := upd.price.getD f.price }

/-- Response of PATCH /api/flight/:id: 200 with the updated flight as the
body, or 404 with a message. -/
structure FlightUpdateResult where
  status : Nat
  message : Option String
  updatedFlight : Option Flight
deriving DecidableEq, Repr

/-- Handler of PATCH /api/flight/:id. -/
def flightRouterPatch (s : Store) (flightId : DocId) (upd : FlightUpdate) :
    FlightUpdateResult × Store :=
  match FlightModel.findById s flightId with
  | none => ({ status := 404, message := some "Flight not found", updatedFlight := none }, s)
  | some f =>
    ({ status := 200, message := none, updatedFlight := some (applyFlightUpdate f upd) },
     { s with flights := updateBy Flight._id (fun g => applyFlightUpdate g upd) flightId s.flights })

/-- Handler of DELETE /api/flight/:id: `findByIdAndDelete` with the result
ignored, then always `res.status(200).json({ message: "Flight Deleted" })`. -/
def flightRouterDelete (s : Store) (flightId : DocId) : StatusResult × Store :=
  ({ status := 200, message := some "Flight Deleted" },
   { s with flights := s.flights.filter (fun f => f._id != flightId) })

/-! ## Booking routes (`src/routes/booking.route.js`) -/

/-- One entry of the dashboard listing: `booking.toObject()` with the `user`
and `flight` fields replaced by the looked-up documents (null when the
reference no longer resolves). -/
structure PopulatedBooking where
  _id : DocId
  user : Option User
  flight : Option Flight
deriving DecidableEq, Repr

/-- Response of GET /api/booking/dashboard. -/
structure DashboardResult where
  status : Nat
  bookings : List PopulatedBooking
deriving DecidableEq, Repr

/-- Handler of GET /api/booking/dashboard. -/
def bookingRouterDashboard (s : Store) : DashboardResult :=
  { status := 200,
    bookings := s.bookings.map (fun b =>
      { _id := b._id,
        user := UserModel.findById s b.user,
        flight := FlightModel.findById s b.flight }) }

/-- Response of POST /api/booking. -/
structure BookingCreateResult where
  status : Nat
  message : String
  booking : Option Booking
deriving DecidableEq, Repr

/-- Handler of POST /api/booking: looks up both references, rejects with 404
naming the user first, then the flight; only when both resolve does it save
a new Booking (`newId` is the ObjectId Mongo generates). -/
def bookingRouterCreate (s : Store) (newId : DocId) (user flight : DocId) :
    BookingCreateResult × Store :=
  let u := UserModel.findById s user
  let f := FlightModel.findById s flight
  match u with
  | none => ({ status := 404, message := "User  not found", booking := none }, s)
  | some _ =>
    match f with
    | none => ({ status := 404, message := "Flight not found", booking := none }, s)
    | some _ =>
      let newBooking : Booking := { _id := newId, user := user, flight := flight }
      ({ status := 201, message := "Flight booked", booking := some newBooking },
       { s with bookings := s.bookings ++ [newBooking] })

/-- The request body of PATCH /api/booking/dashboard/:id, assigned onto the
found document with `Object.assign`; the schema keeps the `user` and
`flight` fields. -/
structure BookingUpdate where
  user : Option DocId
  flight : Option DocId
deriving DecidableEq, Repr

/-- `Object.assign(booking, updatedBookingData)` restricted to schema
fields. -/
def applyBookingUpdate (b : Booking) (upd : BookingUpdate) : Booking :=
  { b with user := upd.user.getD b.user, flight := upd.flight.getD b.flight }

/-- Handler of PATCH /api/booking/dashboard/:id: find, 404 when absent,
otherwise assign the body onto the document, save it, and send 204. -/
def bookingRouterPatch (s : Store) (bookingId : DocId) (upd : BookingUpdate) :
    StatusResult × Store :=
  match BookingModel.findById s bookingId with
  | none => ({ status := 404, message := some "Booking not found" }, s)
  | some _ =>
    ({ status := 204, message := none },
     { s with bookings := updateBy Booking._id (fun b => applyBookingUpdate b upd) bookingId s.bookings })

/-- Handler of DELETE /api/booking/:id: `findByIdAndDelete`, 404 when the id
resolved to no document, otherwise 202. -/
def bookingRouterDelete (s : Store) (bookingId : DocId) : StatusResult × Store :=
  let booking := BookingModel.findById s bookingId
  let s2 : Store := { s with bookings := s.bookings.filter (fun b => b._id != bookingId) }
  match booking with
  | none => ({ status := 404, message := some "Booking not found" }, s2)
  | some _ => ({ status := 202, message := some "Booking deleted" }, s2)

/-! ## Catch branches (500 responses) of every handler -/

/-- The JSON body a handler's catch branch sends with status 500: either
`{ message: ... }` or, in the register handler only, `{ error: error }`
carrying the raw internal error object. -/
inductive CatchBody where
  | messageOnly (message : String)
  | rawError (detail : String)
deriving DecidableEq, Repr

/-- Whether a 500 body consists of a message field only, with no internal
error detail. -/
def CatchBody.messageFieldOnly : CatchBody → Bool
  | .messageOnly _ => true
  | .rawError _ => false

/-- The 500 response each route sends on a storage failure carrying internal
error detail `error`, keyed by method and path, transcribed from the catch
branch of every handler in the three route files. -/
def catchResponses (error : String) : List (String × Nat × CatchBody) :=
  [("GET /api/user", 500, .messageOnly "Internal server error"),
   ("POST /api/user/register", 500, .rawError error),
   ("POST /api/user/login", 500, .messageOnly "Internal server error"),
   ("DELETE /api/user/:id", 500, .messageOnly "Internal server error"),
   ("PATCH /api/user/:id", 500, .messageOnly "Internal server error"),
   ("GET /api/flight", 500, .messageOnly "Internal server error"),
   ("POST /api/flight", 500, .messageOnly "Internal server error"),
   ("GET /api/flight/:id", 500, .messageOnly "Internal server error"),
   ("PATCH /api/flight/:id", 500, .messageOnly "Internal server error"),
   ("DELETE /api/flight/:id", 500, .messageOnly "Internal server error"),
   ("GET /api/booking/dashboard", 500, .messageOnly "Internal server error"),
   ("POST /api/booking", 500, .messageOnly "Internal server error"),
   ("PATCH /api/booking/dashboard/:id", 500, .messageOnly "Internal server error"),
   ("DELETE /api/booking/:id", 500, .messageOnly "Internal server error")]

/-! ## Generic lemmas about `find?`, `filter` and `updateBy` -/

theorem updateBy_eq_self {α : Type} (key : α → DocId) (f : α → α) (i : DocId)
    (l : List α) (hf : ∀ x, f x = x) : updateBy key f i l = l := by
  induction l with
  | nil => rfl
  | cons x rest ih =>
    simp only [updateBy]
    by_cases h : (key x == i) = true
    · simp [h, hf]
    · simp [h, ih]

theorem find?_updateBy_self {α : Type} (key : α → DocId) (f : α → α) (i : DocId)
    (l : List α) (u : α) (hu : l.find? (fun x => key x == i) = some u)
    (hkey : key (f u) = key u) :
    (updateBy key f i l).find? (fun x => key x == i) = some (f u) := by
  induction l with
  | nil => simp at hu
  | cons x rest ih =>
    rw [List.find?_cons] at hu
    by_cases h : (key x == i) = true
    · simp only [h] at hu
      injection hu with hu
      subst hu
      have hkf : (key (f x) == i) = true := by rw [hkey]; exact h
      simp [updateBy, h, List.find?_cons, hkf]
    · have hf : (key x == i) = false := by simpa using h
      simp only [hf] at hu
      simp [updateBy, hf, List.find?_cons, ih hu]

theorem find?_updateBy_other {α : Type} (key : α → DocId) (f : α → α) (i j : DocId)
    (hij : j ≠ i) (hkey : ∀ x, key (f x) = key x) (l : List α) :
    (updateBy key f i l).find? (fun x => key x == j)
      = l.find? (fun x => key x == j) := by
  induction l with
  | nil => rfl
  | cons x rest ih =>
    by_cases h : (key x == i) = true
    · have hxi : key x = i := by simpa using h
      have hxj : (key x == j) = false := by
        rw [hxi, beq_eq_false_iff_ne]
        exact fun hc => hij hc.symm
      have hfxj : (key (f x) == j) = false := by rw [hkey]; exact hxj
      simp [updateBy, h, List.find?_cons, hxj, hfxj]
    · have hf : (key x == i) = false := by simpa using h
      simp [updateBy, hf, List.find?_cons, ih]

theorem find?_filter_ne {α : Type} (key : α → DocId) (i : DocId) (l : List α) :
    (l.filter (fun x => key x != i)).find? (fun x => key x == i) = none := by
  rw [List.find?_eq_none]
  intro x hx
  rw [List.mem_filter] at hx
  simpa using hx.2

theorem filter_ne_of_find?_none {α : Type} (key : α → DocId) (i : DocId) (l : List α)
    (h : l.find? (fun x => key x == i) = none) :
    l.filter (fun x => key x != i) = l := by
  rw [List.find?_eq_none] at h
  apply List.filter_eq_self.mpr
  intro x hx
  simpa using h x hx

/-- Whether a stored password value is plaintext (as opposed to a bcrypt
hash). -/
def PasswordValue.isPlainText : PasswordValue → Bool
  | .plain _ => true
  | .hashed _ _ _ => false

/-! ## Concrete data for evaluating the handlers -/

/-- A concrete registered user. -/
def annUser : User :=
  { _id := 1, name := "Ann", email := "ann@mail.io",
    password := bcryptHash "pw1" "saltA" 5 }

/-- A concrete flight. -/
def delhiFlight : Flight :=
  { _id := 2, airline := "Indigo", flightNo := "6E101", departure := "BLR",
    arrival := "DEL", departureTime := "2023-10-01T10:00",
    arrivalTime := "2023-10-01T13:00", seats := 180, price := 4500 }

/-- A concrete booking referencing `annUser` and `delhiFlight`. -/
def annBooking : Booking := { _id := 3, user := 1, flight := 2 }

/-- A concrete store holding the three records above. -/
def demoStore : Store :=
  { users := [annUser], flights := [delhiFlight], bookings := [annBooking] }

/-! ## Claim theorems -/

/-- C1: POST /api/booking verifies both references: a missing user yields 404
naming the user (this check comes first) with no Booking stored, a present
user with a missing flight yields 404 naming the flight with no Booking
stored, and a new Booking is appended to the store exactly when both
references resolve (in which case the status is 201). -/
theorem C1_booking_create_reference_checks (s : Store) (newId user flight : DocId) :
    (UserModel.findById s user = none →
      (bookingRouterCreate s newId user flight).1.status = 404 ∧
      (bookingRouterCreate s newId user flight).1.message = "User  not found" ∧
      (bookingRouterCreate s newId user flight).2 = s) ∧
    ((UserModel.findById s user).isSome = true →
      FlightModel.findById s flight = none →
      (bookingRouterCreate s newId user flight).1.status = 404 ∧
      (bookingRouterCreate s newId user flight).1.message = "Flight not found" ∧
      (bookingRouterCreate s newId user flight).2 = s) ∧
    ((bookingRouterCreate s newId user flight).2.bookings
        = s.bookings ++ [{ _id := newId, user := user, flight := flight }]
      ↔ (UserModel.findById s user).isSome = true
          ∧ (FlightModel.findById s flight).isSome = true) ∧
    ((UserModel.findById s user).isSome = true →
      (FlightModel.findById s flight).isSome = true →
      (bookingRouterCreate s newId user flight).1.status = 201 ∧
      (bookingRouterCreate s newId user flight).1.message = "Flight booked") := by
  cases hu : UserModel.findById s user with
  | none => simp [bookingRouterCreate, hu]
  | some u =>
    cases hf : FlightModel.findById s flight with
    | none => simp [bookingRouterCreate, hu, hf]
    | some f => simp [bookingRouterCreate, hu, hf]

/-- Witness for C1 at concrete inputs: user id 99 is absent (404 naming the
user, store unchanged); user 1 present but flight 77 absent (404 naming the
flight, store unchanged). -/
theorem C1_booking_create_reference_checks_witness :
    ((bookingRouterCreate demoStore 9 99 2).1.status = 404 ∧
     (bookingRouterCreate demoStore 9 99 2).1.message = "User  not found" ∧
     (bookingRouterCreate demoStore 9 99 2).2 = demoStore) ∧
    ((bookingRouterCreate demoStore 9 1 77).1.status = 404 ∧
     (bookingRouterCreate demoStore 9 1 77).1.message = "Flight not found" ∧
     (bookingRouterCreate demoStore 9 1 77).2 = demoStore) ∧
    ((bookingRouterCreate demoStore 9 1 2).1.status = 201 ∧
     (bookingRouterCreate demoStore 9 1 2).1.message = "Flight booked") :=
  ⟨(C1_booking_create_reference_checks demoStore 9 99 2).1 (by decide),
   (C1_booking_create_reference_checks demoStore 9 1 77).2.1 (by decide) (by decide),
   (C1_booking_create_reference_checks demoStore 9 1 2).2.2.2 (by decide) (by decide)⟩

/-- C2: POST /api/user/login: no user with an exactly matching email yields
401 "User not present"; a matching user whose stored password fails
bcrypt verification yields 401 "password wrong"; on verification success the
response is 200 with a token signed for that user's identifier with a
one-hour expiry. -/
theorem C2_login_cases (s : Store) (email password : String) :
    (s.users.find? (fun u => u.email == email) = none →
      userRouterLogin s email password
        = { status := 401, message := "User not present", token := none }) ∧
    (∀ u, s.users.find? (fun v => v.email == email) = some u →
      (bcryptCompare password u.password = false →
        userRouterLogin s email password
          = { status := 401, message := "password wrong", token := none }) ∧
      (bcryptCompare password u.password = true →
        userRouterLogin s email password
          = { status := 200, message := "User logged in",
              token := some (jwtSign u._id "secret" "1h") } ∧
        (jwtSign u._id "secret" "1h").userId = u._id ∧
        (jwtSign u._id "secret" "1h").expiresIn = "1h")) := by
  constructor
  · intro h; simp [userRouterLogin, h]
  · intro u hu
    constructor
    · intro hc; simp [userRouterLogin, hu, hc]
    · intro hc; exact ⟨by simp [userRouterLogin, hu, hc], rfl, rfl⟩

/-- Witness for C2 at concrete inputs: unknown email, wrong password, and
correct password against `demoStore`. -/
theorem C2_login_cases_witness :
    (userRouterLogin demoStore "nobody@mail.io" "pw1"
      = { status := 401, message := "User not present", token := none }) ∧
    (userRouterLogin demoStore "ann@mail.io" "bad"
      = { status := 401, message := "password wrong", token := none }) ∧
    (userRouterLogin demoStore "ann@mail.io" "pw1"
      = { status := 200, message := "User logged in",
          token := some (jwtSign 1 "secret" "1h") }) :=
  ⟨(C2_login_cases demoStore "nobody@mail.io" "pw1").1 (by decide),
   ((C2_login_cases demoStore "ann@mail.io" "bad").2 annUser (by decide)).1 (by decide),
   (((C2_login_cases demoStore "ann@mail.io" "pw1").2 annUser (by decide)).2 (by decide)).1⟩

/-- C6: POST /api/user/register persists a User whose password field is the
salted bcrypt hash (cost 5) of the supplied plaintext, never the plaintext
itself, and the 201 response returns that same created record, stored hash
included. -/
theorem C6_register_stores_and_returns_hash (s : Store) (newId : DocId)
    (salt name email password : String) :
    (userRouterRegister s newId salt name email password).2.users
      = s.users ++ [(userRouterRegister s newId salt name email password).1.newUser] ∧
    (userRouterRegister s newId salt name email password).1.status = 201 ∧
    (userRouterRegister s newId salt name email password).1.message = "User saved" ∧
    (userRouterRegister s newId salt name email password).1.newUser.password
      = bcryptHash password salt 5 ∧
    PasswordValue.isPlainText
      (userRouterRegister s newId salt name email password).1.newUser.password = false :=
  ⟨rfl, rfl, rfl, rfl, rfl⟩

/-- C9: GET /api/user responds 200 with the full stored User collection:
every stored record is returned as-is, its password field included. -/
theorem C9_user_list_returns_stored_passwords (s : Store) :
    (userRouterList s).status = 200 ∧
    (userRouterList s).users = s.users ∧
    ∀ u, u ∈ s.users → u ∈ (userRouterList s).users ∧
      ∃ v, v ∈ (userRouterList s).users ∧ v._id = u._id ∧ v.password = u.password :=
  ⟨rfl, rfl, fun u hu => ⟨hu, u, hu, rfl, rfl⟩⟩

/-- Witness for C9: the stored record of `demoStore` is returned with its
password hash. -/
theorem C9_user_list_returns_stored_passwords_witness :
    annUser ∈ (userRouterList demoStore).users ∧
    ∃ v, v ∈ (userRouterList demoStore).users
      ∧ v._id = annUser._id ∧ v.password = annUser.password :=
  (C9_user_list_returns_stored_passwords demoStore).2.2 annUser (by decide)

/-- C10: PATCH /api/booking/dashboard/:id with an empty request body, on an
existing booking id, responds 204 and leaves the store — hence the booking's
identifier and its user and flight references — unchanged. -/
theorem C10_booking_patch_empty_body (s : Store) (i : DocId) (b : Booking)
    (hb : BookingModel.findById s i = some b) :
    (bookingRouterPatch s i { user := none, flight := none }).1
      = { status := 204, message := none } ∧
    (bookingRouterPatch s i { user := none, flight := none }).2 = s := by
  have happ : ∀ x : Booking, applyBookingUpdate x { user := none, flight := none } = x :=
    fun x => rfl
  refine ⟨by simp [bookingRouterPatch, hb], ?_⟩
  simp [bookingRouterPatch, hb,
    updateBy_eq_self Booking._id (fun x => applyBookingUpdate x { user := none, flight := none })
      i s.bookings happ]

/-- Witness for C10: patching booking 3 of `demoStore` with an empty body. -/
theorem C10_booking_patch_empty_body_witness :
    (bookingRouterPatch demoStore 3 { user := none, flight := none }).1
      = { status := 204, message := none } ∧
    (bookingRouterPatch demoStore 3 { user := none, flight := none }).2 = demoStore :=
  C10_booking_patch_empty_body demoStore 3 annBooking (by decide)

/-- A store whose single booking references a user that no longer exists
(deleted after booking creation). -/
def danglingStore : Store :=
  { users := [], flights := [delhiFlight], bookings := [annBooking] }

/-- C3: GET /api/booking/dashboard responds 200 with exactly one joined
entry per stored Booking; each entry carries the booking's identifier and
the per-reference lookups, and a reference that no longer resolves shows up
as a `none` field while the listing as a whole still succeeds. -/
theorem C3_dashboard_joins_every_booking (s : Store) :
    (bookingRouterDashboard s).status = 200 ∧
    (bookingRouterDashboard s).bookings.length = s.bookings.length ∧
    (∀ b, b ∈ s.bookings →
      ({ _id := b._id, user := UserModel.findById s b.user,
         flight := FlightModel.findById s b.flight } : PopulatedBooking)
        ∈ (bookingRouterDashboard s).bookings) ∧
    (∀ e, e ∈ (bookingRouterDashboard s).bookings → ∃ b, b ∈ s.bookings ∧
      e._id = b._id ∧ e.user = UserModel.findById s b.user ∧
      e.flight = FlightModel.findById s b.flight) ∧
    (∀ b, b ∈ s.bookings → UserModel.findById s b.user = none →
      ∃ e, e ∈ (bookingRouterDashboard s).bookings ∧ e._id = b._id ∧ e.user = none) ∧
    (∀ b, b ∈ s.bookings → FlightModel.findById s b.flight = none →
      ∃ e, e ∈ (bookingRouterDashboard s).bookings ∧ e._id = b._id ∧ e.flight = none) := by
  refine ⟨rfl, by simp [bookingRouterDashboard], ?_, ?_, ?_, ?_⟩
  · intro b hb
    simp only [bookingRouterDashboard, List.mem_map]
    exact ⟨b, hb, rfl⟩
  · intro e he
    simp only [bookingRouterDashboard, List.mem_map] at he
    obtain ⟨b, hb, rfl⟩ := he
    exact ⟨b, hb, rfl, rfl, rfl⟩
  · intro b hb hnone
    refine ⟨{ _id := b._id, user := UserModel.findById s b.user,
              flight := FlightModel.findById s b.flight }, ?_, rfl, hnone⟩
    simp only [bookingRouterDashboard, List.mem_map]
    exact ⟨b, hb, rfl⟩
  · intro b hb hnone
    refine ⟨{ _id := b._id, user := UserModel.findById s b.user,
              flight := FlightModel.findById s b.flight }, ?_, rfl, hnone⟩
    simp only [bookingRouterDashboard, List.mem_map]
    exact ⟨b, hb, rfl⟩

/-- Witness for C3: in `danglingStore` the booking's user was deleted; the
dashboard still responds 200 and lists the booking with a `none` user
field. -/
theorem C3_dashboard_joins_every_booking_witness :
    (bookingRouterDashboard danglingStore).status = 200 ∧
    ∃ e, e ∈ (bookingRouterDashboard danglingStore).bookings
      ∧ e._id = annBooking._id ∧ e.user = none :=
  ⟨(C3_dashboard_joins_every_booking danglingStore).1,
   (C3_dashboard_joins_every_booking danglingStore).2.2.2.2.1 annBooking
     (by decide) (by decide)⟩

/-- C4: DELETE /api/flight/:id responds 200 "Flight Deleted" for every id —
it never reports NotFound, also when the id resolves to no flight — and
afterwards no flight with that id is stored; by contrast DELETE
/api/user/:id and DELETE /api/booking/:id respond 404 on a non-existent id
and change nothing. -/
theorem C4_flight_delete_always_succeeds (s : Store) (i : DocId) :
    (flightRouterDelete s i).1.status = 200 ∧
    (flightRouterDelete s i).1.message = some "Flight Deleted" ∧
    FlightModel.findById (flightRouterDelete s i).2 i = none ∧
    (UserModel.findById s i = none →
      (userRouterDelete s i).1 = { status := 404, message := some "User not found" } ∧
      (userRouterDelete s i).2 = s) ∧
    (BookingModel.findById s i = none →
      (bookingRouterDelete s i).1 = { status := 404, message := some "Booking not found" } ∧
      (bookingRouterDelete s i).2 = s) := by
  refine ⟨rfl, rfl, ?_, ?_, ?_⟩
  · simp [flightRouterDelete, FlightModel.findById]
  · intro h
    have hfe : s.users.filter (fun u => u._id != i) = s.users :=
      filter_ne_of_find?_none User._id i s.users h
    exact ⟨by simp [userRouterDelete, h], by simp [userRouterDelete, h, hfe]⟩
  · intro h
    have hfe : s.bookings.filter (fun b => b._id != i) = s.bookings :=
      filter_ne_of_find?_none Booking._id i s.bookings h
    exact ⟨by simp [bookingRouterDelete, h], by simp [bookingRouterDelete, h, hfe]⟩

/-- Witness for C4: deleting the absent flight 77 and the present flight 2
both answer 200; deleting absent user 99 and absent booking 99 answer 404
and leave the store as it was. -/
theorem C4_flight_delete_always_succeeds_witness :
    (flightRouterDelete demoStore 77).1.status = 200 ∧
    (flightRouterDelete demoStore 77).1.message = some "Flight Deleted" ∧
    FlightModel.findById (flightRouterDelete demoStore 2).2 2 = none ∧
    ((userRouterDelete demoStore 99).1 = { status := 404, message := some "User not found" } ∧
     (userRouterDelete demoStore 99).2 = demoStore) ∧
    ((bookingRouterDelete demoStore 99).1 = { status := 404, message := some "Booking not found" } ∧
     (bookingRouterDelete demoStore 99).2 = demoStore) :=
  ⟨(C4_flight_delete_always_succeeds demoStore 77).1,
   (C4_flight_delete_always_succeeds demoStore 77).2.1,
   (C4_flight_delete_always_succeeds demoStore 2).2.2.1,
   (C4_flight_delete_always_succeeds demoStore 99).2.2.2.1 (by decide),
   (C4_flight_delete_always_succeeds demoStore 99).2.2.2.2 (by decide)⟩

/-- C5: PATCH /api/user/:id on an existing id responds 204 and overwrites
exactly the supplied subset of \x7bname, email, password\x7d on that record —
unsupplied fields and the identifier keep their prior values, and every
other record is untouched; on a non-existent id it responds 404 "User not
found" and changes nothing. -/
theorem C5_user_patch_partial_update (s : Store) (i : DocId) (upd : UserUpdate) :
    (UserModel.findById s i = none →
      (userRouterPatch s i upd).1 = { status := 404, message := some "User not found" } ∧
      (userRouterPatch s i upd).2 = s) ∧
    (∀ u, UserModel.findById s i = some u →
      (userRouterPatch s i upd).1 = { status := 204, message := none } ∧
      UserModel.findById (userRouterPatch s i upd).2 i = some (applyUserUpdate u upd) ∧
      (∀ j, j ≠ i →
        UserModel.findById (userRouterPatch s i upd).2 j = UserModel.findById s j) ∧
      (applyUserUpdate u upd)._id = u._id ∧
      (upd.name = none → (applyUserUpdate u upd).name = u.name) ∧
      (∀ v, upd.name = some v → (applyUserUpdate u upd).name = v) ∧
      (upd.email = none → (applyUserUpdate u upd).email = u.email) ∧
      (∀ v, upd.email = some v → (applyUserUpdate u upd).email = v) ∧
      (upd.password = none → (applyUserUpdate u upd).password = u.password) ∧
      (∀ v, upd.password = some v →
        (applyUserUpdate u upd).password = PasswordValue.plain v)) := by
  constructor
  · intro h
    exact ⟨by simp [userRouterPatch, h], by simp [userRouterPatch, h]⟩
  · intro u hu
    have hid : User._id (applyUserUpdate u upd) = User._id u := rfl
    refine ⟨by simp [userRouterPatch, hu], ?_, ?_, rfl, ?_, ?_, ?_, ?_, ?_, ?_⟩
    · have hsf := find?_updateBy_self User._id (fun x => applyUserUpdate x upd)
        i s.users u hu hid
      simp only [userRouterPatch, hu]
      exact hsf
    · intro j hj
      have hof := find?_updateBy_other User._id (fun x => applyUserUpdate x upd)
        i j hj (fun x => rfl) s.users
      simp only [userRouterPatch, hu]
      exact hof
    · intro h; simp [applyUserUpdate, h]
    · intro v h; simp [applyUserUpdate, h]
    · intro h; simp [applyUserUpdate, h]
    · intro v h; simp [applyUserUpdate, h]
    · intro h; simp [applyUserUpdate, h]
    · intro v h; simp [applyUserUpdate, h]

/-- Witness for C5: patching user 1 of `demoStore` with only a new email
keeps name and password, overwrites the email, and responds 204; patching
the absent id 99 responds 404 and leaves the store as it was. -/
theorem C5_user_patch_partial_update_witness :
    ((userRouterPatch demoStore 1 { name := none, email := some "ann2@mail.io", password := none }).1
      = { status := 204, message := none } ∧
     UserModel.findById
        (userRouterPatch demoStore 1 { name := none, email := some "ann2@mail.io", password := none }).2 1
      = some (applyUserUpdate annUser { name := none, email := some "ann2@mail.io", password := none }) ∧
     (applyUserUpdate annUser { name := none, email := some "ann2@mail.io", password := none }).name
      = annUser.name ∧
     (applyUserUpdate annUser { name := none, email := some "ann2@mail.io", password := none }).email
      = "ann2@mail.io" ∧
     (applyUserUpdate annUser { name := none, email := some "ann2@mail.io", password := none }).password
      = annUser.password) ∧
    ((userRouterPatch demoStore 99 { name := none, email := some "ann2@mail.io", password := none }).1
      = { status := 404, message := some "User not found" } ∧
     (userRouterPatch demoStore 99 { name := none, email := some "ann2@mail.io", password := none }).2
      = demoStore) :=
  by
  obtain ⟨h1, h2, h3, h4, h5, h6, h7, h8, h9, h10⟩ :=
    (C5_user_patch_partial_update demoStore 1
      { name := none, email := some "ann2@mail.io", password := none }).2 annUser (by decide)
  exact ⟨⟨h1, h2, h5 rfl, h8 "ann2@mail.io" rfl, h9 rfl⟩,
    (C5_user_patch_partial_update demoStore 99
      { name := none, email := some "ann2@mail.io", password := none }).1 (by decide)⟩

/-- C8: PATCH /api/flight/:id on an existing id responds 200 returning the
updated flight, overwrites exactly the supplied subset of the eight flight
fields, keeps every unsupplied field and the identifier, and leaves other
flights untouched; on a non-existent id it responds 404 "Flight not
found" and changes nothing. -/
theorem C8_flight_patch_partial_update (s : Store) (i : DocId) (upd : FlightUpdate) :
    (FlightModel.findById s i = none →
      (flightRouterPatch s i upd).1
        = { status := 404, message := some "Flight not found", updatedFlight := none } ∧
      (flightRouterPatch s i upd).2 = s) ∧
    (∀ f, FlightModel.findById s i = some f →
      (flightRouterPatch s i upd).1.status = 200 ∧
      (flightRouterPatch s i upd).1.updatedFlight = some (applyFlightUpdate f upd) ∧
      FlightModel.findById (flightRouterPatch s i upd).2 i = some (applyFlightUpdate f upd) ∧
      (∀ j, j ≠ i →
        FlightModel.findById (flightRouterPatch s i upd).2 j = FlightModel.findById s j) ∧
      (applyFlightUpdate f upd)._id = f._id ∧
      (upd.airline = none → (applyFlightUpdate f upd).airline = f.airline) ∧
      (∀ v, upd.airline = some v → (applyFlightUpdate f upd).airline = v) ∧
      (upd.flightNo = none → (applyFlightUpdate f upd).flightNo = f.flightNo) ∧
      (∀ v, upd.flightNo = some v → (applyFlightUpdate f upd).flightNo = v) ∧
      (upd.departure = none → (applyFlightUpdate f upd).departure = f.departure) ∧
      (∀ v, upd.departure = some v → (applyFlightUpdate f upd).departure = v) ∧
      (upd.arrival = none → (applyFlightUpdate f upd).arrival = f.arrival) ∧
      (∀ v, upd.arrival = some v → (applyFlightUpdate f upd).arrival = v) ∧
      (upd.departureTime = none → (applyFlightUpdate f upd).departureTime = f.departureTime) ∧
      (∀ v, upd.departureTime = some v → (applyFlightUpdate f upd).departureTime = v) ∧
      (upd.arrivalTime = none → (applyFlightUpdate f upd).arrivalTime = f.arrivalTime) ∧
      (∀ v, upd.arrivalTime = some v → (applyFlightUpdate f upd).arrivalTime = v) ∧
      (upd.seats = none → (applyFlightUpdate f upd).seats = f.seats) ∧
      (∀ v, upd.seats = some v → (applyFlightUpdate f upd).seats = v) ∧
      (upd.price = none → (applyFlightUpdate f upd).price = f.price) ∧
      (∀ v, upd.price = some v → (applyFlightUpdate f upd).price = v)) := by
  constructor
  · intro h
    exact ⟨by simp [flightRouterPatch, h], by simp [flightRouterPatch, h]⟩
  · intro f hf
    have hid : Flight._id (applyFlightUpdate f upd) = Flight._id f := rfl
    refine ⟨by simp [flightRouterPatch, hf], by simp [flightRouterPatch, hf],
      ?_, ?_, rfl, ?_, ?_, ?_, ?_, ?_, ?_, ?_, ?_, ?_, ?_, ?_, ?_, ?_, ?_, ?_, ?_⟩
    · have hsf := find?_updateBy_self Flight._id (fun x => applyFlightUpdate x upd)
        i s.flights f hf hid
      simp only [flightRouterPatch, hf]
      exact hsf
    · intro j hj
      have hof := find?_updateBy_other Flight._id (fun x => applyFlightUpdate x upd)
        i j hj (fun x => rfl) s.flights
      simp only [flightRouterPatch, hf]
      exact hof
    all_goals first
      | (intro h; simp [applyFlightUpdate, h])
      | (intro v h; simp [applyFlightUpdate, h])

/-- Witness for C8: patching flight 2 of `demoStore` with only a new price
keeps the airline and seats, overwrites the price, and responds 200 with the
updated record; patching the absent id 77 responds 404 and changes
nothing. -/
theorem C8_flight_patch_partial_update_witness :
    ((flightRouterPatch demoStore 2
        { airline := none, flightNo := none, departure := none, arrival := none,
          departureTime := none, arrivalTime := none, seats := none, price := some 3999 }).1.status
      = 200 ∧
     (applyFlightUpdate delhiFlight
        { airline := none, flightNo := none, departure := none, arrival := none,
          departureTime := none, arrivalTime := none, seats := none, price := some 3999 }).airline
      = delhiFlight.airline ∧
     (applyFlightUpdate delhiFlight
        { airline := none, flightNo := none, departure := none, arrival := none,
          departureTime := none, arrivalTime := none, seats := none, price := some 3999 }).seats
      = delhiFlight.seats ∧
     (applyFlightUpdate delhiFlight
        { airline := none, flightNo := none, departure := none, arrival := none,
          departureTime := none, arrivalTime := none, seats := none, price := some 3999 }).price
      = 3999) ∧
    ((flightRouterPatch demoStore 77
        { airline := none, flightNo := none, departure := none, arrival := none,
          departureTime := none, arrivalTime := none, seats := none, price := some 3999 }).1
      = { status := 404, message := some "Flight not found", updatedFlight := none } ∧
     (flightRouterPatch demoStore 77
        { airline := none, flightNo := none, departure := none, arrival := none,
          departureTime := none, arrivalTime := none, seats := none, price := some 3999 }).2
      = demoStore) :=
  by
  obtain ⟨h1, h2, h3, h4, h5, h6, h7, h8, h9, h10, h11, h12, h13, h14, h15, h16,
      h17, h18, h19, h20, h21⟩ :=
    (C8_flight_patch_partial_update demoStore 2
      { airline := none, flightNo := none, departure := none, arrival := none,
        departureTime := none, arrivalTime := none, seats := none, price := some 3999 }).2
      delhiFlight (by decide)
  exact ⟨⟨h1, h6 rfl, h18 rfl, h21 3999 rfl⟩,
    (C8_flight_patch_partial_update demoStore 77
      { airline := none, flightNo := none, departure := none, arrival := none,
        departureTime := none, arrivalTime := none, seats := none, price := some 3999 }).1
      (by decide)⟩

/-- C7 (the code violates it): among the 500 catch responses of all fourteen
handlers, the one of POST /api/user/register sends the raw internal error
object as its JSON body instead of a lone message field; it is the single
offender. -/
theorem C7_register_500_leaks_error_detail :
    ("POST /api/user/register", 500,
        CatchBody.rawError "MongooseError: buffering timed out")
      ∈ catchResponses "MongooseError: buffering timed out" ∧
    (catchResponses "MongooseError: buffering timed out").all
        (fun r => CatchBody.messageFieldOnly r.2.2) = false ∧
    ((catchResponses "MongooseError: buffering timed out").filter
        (fun r => ! CatchBody.messageFieldOnly r.2.2)).map (fun r => r.1)
      = ["POST /api/user/register"] := by
  decide
